import Mathlib

/-!
Verification of the PX4 `FlightTaskAutoMapper` setpoint-generation stage
(`src/lib/FlightTasks/tasks/AutoMapper/FlightTaskAutoMapper.cpp`).

Floating-point scalars are modelled by the type `F`: either `nan` (the NaN
sentinel, which in this code also stands for "no data" / "unconstrained") or a
finite value represented exactly as a rational.  Arithmetic propagates `nan`
and every comparison involving `nan` is false, matching IEEE-754 comparison
semantics on the operations this code performs.  Library helpers that are not
part of the translated source file (the flight-task base class, `math::gradual`,
`matrix::Vector2f::unit_or_zero`) are modelled from the specification and
carry a doc comment saying so.
-/

/-- A floating-point scalar of the source, shallowly embedded: NaN or an exact
finite value. -/
inductive F where
  | nan : F
  | fin : ℚ → F
deriving DecidableEq, Repr

namespace F

/-- PX4_ISFINITE: true exactly on finite values. -/
def isfinite : F → Bool
  | nan => false
  | fin _ => true

/-- IEEE negation: `-NaN = NaN`. -/
def neg : F → F
  | nan => nan
  | fin a => fin (-a)

/-- IEEE addition restricted to {finite, NaN}: NaN propagates. -/
def add : F → F → F
  | fin a, fin b => fin (a + b)
  | _, _ => nan

/-- IEEE subtraction restricted to {finite, NaN}: NaN propagates. -/
def sub : F → F → F
  | fin a, fin b => fin (a - b)
  | _, _ => nan

/-- IEEE multiplication restricted to {finite, NaN}: NaN propagates. -/
def mul : F → F → F
  | fin a, fin b => fin (a * b)
  | _, _ => nan

/-- IEEE division restricted to {finite, NaN}: NaN propagates, and division by
zero leaves the finite fragment (modelled as `nan`). -/
def div : F → F → F
  | fin a, fin b => if b = 0 then nan else fin (a / b)
  | _, _ => nan

/-- IEEE `<`: any comparison with NaN is false. -/
def lt : F → F → Bool
  | fin a, fin b => decide (a < b)
  | _, _ => false

/-- IEEE `>`: any comparison with NaN is false. -/
def gt : F → F → Bool
  | fin a, fin b => decide (b < a)
  | _, _ => false

end F

/-- matrix::Vector3f, componentwise. Index (0)/(1)/(2) of the source becomes
field x/y/z. -/
structure Vec3 where
  x : F
  y : F
  z : F
deriving DecidableEq, Repr

/-- Vector3f(NAN, NAN, NAN). -/
def nan3 : Vec3 := { x := F.nan, y := F.nan, z := F.nan }

/-- Vector3f zeroed on all axes (`.zero()`). -/
def zero3 : Vec3 := { x := F.fin 0, y := F.fin 0, z := F.fin 0 }

/-- vehicle_constraints_s landing-gear command.  `keep` is the baseline state:
the spec's default constraints leave the gear "unspecified", i.e. neither UP
nor DOWN has been commanded. -/
inductive Gear where
  | up
  | down
  | keep
deriving DecidableEq, Repr

/-- The constraint fields this task writes: tilt limit, ascent / descent speed
limits and the landing-gear command. -/
structure Constraints where
  tilt : F
  speed_up : F
  speed_down : F
  landing_gear : Gear
deriving DecidableEq, Repr

/-- The named tunable parameters read by this task.  `MPC_*` names follow the
source.  The last four fields are the configured baseline maxima and the cruise
speed, modelled from the spec (their definitions live outside the translated
file): the default constraints put "all limits at configured maxima", and the
velocity generator scales by "a configured cruise speed". -/
structure Params where
  MPC_LAND_SPEED : ℚ
  MPC_TILTMAX_LND : ℚ
  MPC_LAND_ALT1 : ℚ
  MPC_LAND_ALT2 : ℚ
  MPC_TKO_SPEED : ℚ
  max_tilt : ℚ
  max_speed_up : ℚ
  max_speed_down : ℚ
  mc_cruise_speed : ℚ
deriving DecidableEq, Repr

/-- WaypointType: the closed enumeration of behavior modes. -/
inductive WaypointType where
  | idle
  | land
  | loiter
  | position
  | takeoff
  | velocity
deriving DecidableEq, Repr

/-- The home-position subscription fields read by `_updateAltitudeAboveGround`:
the altitude-validity flag and the local-frame z of home. -/
structure HomePosition where
  valid_alt : Bool
  z : F
deriving DecidableEq, Repr

/-- The mutable state of a `FlightTaskAutoMapper` instance together with the
externally supplied inputs it reads during one cycle. Field names follow the
C++ members. -/
structure State where
  params : Params
  _type : WaypointType
  _type_previous : WaypointType
  _position : Vec3
  _velocity : Vec3
  _target : Vec3
  _position_setpoint : Vec3
  _velocity_setpoint : Vec3
  _thrust_setpoint : Vec3
  _speed_at_target : F
  _constraints : Constraints
  _alt_above_ground : F
  _dist_to_bottom : F
  _sub_home_position : HomePosition
deriving DecidableEq, Repr

/-- Line-following types: loiter and position (source local `follow_line`). -/
def followLine : WaypointType → Bool
  | WaypointType.loiter => true
  | WaypointType.position => true
  | _ => false

/-- Modelled from the spec: `FlightTask::_setDefaultConstraints` (base class,
absent from src/).  The spec's baseline is "all limits at configured maxima,
gear state unspecified", overwriting anything a previous cycle left behind. -/
def _setDefaultConstraints (s : State) : State :=
  { s with _constraints :=
    { tilt := F.fin s.params.max_tilt
      speed_up := F.fin s.params.max_speed_up
      speed_down := F.fin s.params.max_speed_down
      landing_gear := Gear.keep } }

/-- FlightTaskAutoMapper::_updateAltitudeAboveGround: default is the negated
local down-position; a finite distance-to-ground measurement wins; otherwise a
valid home altitude turns it into `-position(2) + home.z`. -/
def _updateAltitudeAboveGround (s : State) : State :=
  if s._dist_to_bottom.isfinite then
    { s with _alt_above_ground := s._dist_to_bottom }
  else if s._sub_home_position.valid_alt then
    { s with _alt_above_ground := (s._position.z.neg).add s._sub_home_position.z }
  else
    { s with _alt_above_ground := s._position.z.neg }

/-- FlightTaskAutoMapper::_reset: setpoints equal current state, target-approach
speed zeroed. -/
def _reset (s : State) : State :=
  { s with
    _velocity_setpoint := s._velocity
    _position_setpoint := s._position
    _speed_at_target := F.fin 0 }

/-- FlightTaskAutoMapper::activate: the base-class `FlightTaskAuto::activate`
(absent from src/; Modelled from the spec: activation seeds the setpoints from
the current vehicle state and zeroes the target-approach speed, and nothing
else in §4.2 touches the fields modelled here) followed by `_reset`. -/
def activate (s : State) : State := _reset s

/-- FlightTaskAutoMapper::_generateIdleSetpoints: fully-unconstrained position
and velocity, zero thrust. -/
def _generateIdleSetpoints (s : State) : State :=
  { s with
    _position_setpoint := nan3
    _velocity_setpoint := nan3
    _thrust_setpoint := zero3 }

/-- FlightTaskAutoMapper::_generateLandSetpoints: keep target xy, descend with
land speed; tilt, descent-speed and gear-down constraints. -/
def _generateLandSetpoints (s : State) : State :=
  { s with
    _position_setpoint := { x := s._target.x, y := s._target.y, z := F.nan }
    _velocity_setpoint := { x := F.nan, y := F.nan, z := F.fin s.params.MPC_LAND_SPEED }
    _constraints :=
      { s._constraints with
        tilt := F.fin s.params.MPC_TILTMAX_LND
        speed_down := F.fin s.params.MPC_LAND_SPEED
        landing_gear := Gear.down } }

/-- Modelled from the spec: `FlightTaskAuto::_generateSetpoints` (the
line-following generator, absent from src/).  Spec §4.3: Loiter/Position
setpoints are "held from reset-seeded state (not regenerated by this stub)",
thrust untouched, no constraint deltas beyond defaults — i.e. the modelled
state is unchanged. -/
def _generateSetpoints (s : State) : State := s

/-- Modelled from the spec: the interpolation helper `math::gradual` used by
the takeoff ramp (absent from src/).  Spec §4.3 describes it as a linear ramp
that "must be monotonic and clamp outside" its altitude domain: the clamped
linear interpolation through (x_low, y_low) and (x_high, y_high), written with
the source's slope/intercept shape `a*value + b`. -/
def gradual (value x_low x_high y_low y_high : F) : F :=
  if value.lt x_low then y_low
  else if value.gt x_high then y_high
  else
    let a := (y_high.sub y_low).div (x_high.sub x_low)
    let b := y_low.sub (a.mul x_low)
    (a.mul value).add b

/-- FlightTaskAutoMapper::_generateTakeoffSetpoints: position setpoint is the
target verbatim, velocity unconstrained, ascent-speed limit ramped by
`gradual(alt, LAND_ALT2, LAND_ALT1, TKO_SPEED, speed_up)`, gear down. -/
def _generateTakeoffSetpoints (s : State) : State :=
  { s with
    _position_setpoint := s._target
    _velocity_setpoint := nan3
    _constraints :=
      { s._constraints with
        speed_up := gradual s._alt_above_ground (F.fin s.params.MPC_LAND_ALT2)
          (F.fin s.params.MPC_LAND_ALT1) (F.fin s.params.MPC_TKO_SPEED)
          s._constraints.speed_up
        landing_gear := Gear.down } }

/-- Modelled from the spec: `matrix::Vector2f::unit_or_zero` (absent from
src/).  Spec §4.3: "unit-or-zero" semantics — an exactly-zero input degrades to
the zero vector; for a nonzero input the result is the unit vector in its
direction, whose irrational components are outside the exact-rational fragment,
so the nonzero branch is an arbitrary parameter `unitDir` (every theorem below
holds for all `unitDir`). -/
def unit_or_zero (unitDir : F → F → F × F) (x y : F) : F × F :=
  if x = F.fin 0 ∧ y = F.fin 0 then (F.fin 0, F.fin 0) else unitDir x y

/-- FlightTaskAutoMapper::_generateVelocitySetpoints: hold current altitude,
horizontal velocity setpoint is the unit-or-zero of current horizontal velocity
scaled by the cruise speed, vertical velocity unconstrained. -/
def _generateVelocitySetpoints (unitDir : F → F → F × F) (s : State) : State :=
  let vel_sp_xy := unit_or_zero unitDir s._velocity.x s._velocity.y
  { s with
    _position_setpoint := { x := F.nan, y := F.nan, z := s._position.z }
    _velocity_setpoint :=
      { x := vel_sp_xy.1.mul (F.fin s.params.mc_cruise_speed)
        y := vel_sp_xy.2.mul (F.fin s.params.mc_cruise_speed)
        z := F.nan } }

/-- FlightTaskAutoMapper::_highEnoughForLandingGear: altitude above two
meters. -/
def _highEnoughForLandingGear (s : State) : Bool :=
  s._alt_above_ground.gt (F.fin 2)

/-- FlightTaskAutoMapper::updateParams: the base-class update (absent from
src/; Modelled from the spec: "No other cross-parameter constraints exist in
this core", so it leaves the modelled parameters unchanged), then
`MPC_LAND_ALT1.set(max(MPC_LAND_ALT1, MPC_LAND_ALT2))`. -/
def updateParams (p : Params) : Params :=
  { p with MPC_LAND_ALT1 := max p.MPC_LAND_ALT1 p.MPC_LAND_ALT2 }

/-- Stage 1 of FlightTaskAutoMapper::update: reset constraints to the defaults,
then recompute altitude above ground. -/
def updStage1 (s : State) : State :=
  _updateAltitudeAboveGround (_setDefaultConstraints s)

/-- Stage 2 of update: reset all setpoints to the current vehicle state the
first time the vehicle starts to follow a line. -/
def updStage2 (s : State) : State :=
  if followLine s._type && ! followLine s._type_previous then _reset (updStage1 s)
  else updStage1 s

/-- Stage 3 of update: reset the thrust setpoint to NAN in case the vehicle
exits idle (the source tests only `_type_previous == idle`). -/
def updStage3 (s : State) : State :=
  if s._type_previous = WaypointType.idle then { updStage2 s with _thrust_setpoint := nan3 }
  else updStage2 s

/-- The generator dispatch of update: exactly one generator runs, selected by
the current type. -/
def dispatch (unitDir : F → F → F × F) (s : State) : State :=
  if s._type = WaypointType.idle then _generateIdleSetpoints s
  else if s._type = WaypointType.land then _generateLandSetpoints s
  else if followLine s._type then _generateSetpoints s
  else if s._type = WaypointType.takeoff then _generateTakeoffSetpoints s
  else if s._type = WaypointType.velocity then _generateVelocitySetpoints unitDir s
  else s

/-- Stage 4 of update: the state right after generator dispatch. -/
def updStage4 (unitDir : F → F → F × F) (s : State) : State :=
  dispatch unitDir (updStage3 s)

/-- FlightTaskAutoMapper::update: default constraints, altitude, line-follow
reset, idle-exit thrust reset, dispatch, landing-gear raise, previous-type
update. -/
def update (unitDir : F → F → F × F) (s : State) : State :=
  let s4 := updStage4 unitDir s
  let s5 :=
    if _highEnoughForLandingGear s4 then
      { s4 with _constraints := { s4._constraints with landing_gear := Gear.up } }
    else s4
  { s5 with _type_previous := s._type }

/-- A concrete parameter assignment used by concrete instances below:
LAND_ALT2 = 1 < LAND_ALT1 = 3, TKO_SPEED = 7, baseline max ascent speed 5. -/
def p0 : Params :=
  { MPC_LAND_SPEED := 1, MPC_TILTMAX_LND := 45, MPC_LAND_ALT1 := 3, MPC_LAND_ALT2 := 1,
    MPC_TKO_SPEED := 7, max_tilt := 60, max_speed_up := 5, max_speed_down := 4,
    mc_cruise_speed := 6 }

/-- A concrete state used by concrete instances below: loitering after takeoff,
at rest, no distance-to-ground data, no home altitude. -/
def st0 : State :=
  { params := p0
    _type := WaypointType.loiter
    _type_previous := WaypointType.takeoff
    _position := { x := F.fin 1, y := F.fin 2, z := F.fin (-10) }
    _velocity := { x := F.fin 0, y := F.fin 0, z := F.fin 0 }
    _target := { x := F.fin 4, y := F.fin 5, z := F.fin (-20) }
    _position_setpoint := nan3
    _velocity_setpoint := nan3
    _thrust_setpoint := zero3
    _speed_at_target := F.fin 0
    _constraints :=
      { tilt := F.fin 60, speed_up := F.fin 5, speed_down := F.fin 4, landing_gear := Gear.keep }
    _alt_above_ground := F.fin 0
    _dist_to_bottom := F.nan
    _sub_home_position := { valid_alt := false, z := F.fin 0 } }

/-- A concrete instantiation of the unit-direction parameter, used only to
close universally quantified statements on concrete inputs. -/
def unitDir0 : F → F → F × F := fun x y => (x, y)

theorem updStage2_thrust (s : State) :
    (updStage2 s)._thrust_setpoint = s._thrust_setpoint := by
  unfold updStage2 updStage1 _reset _updateAltitudeAboveGround _setDefaultConstraints
  split <;> split <;> first | rfl | (split <;> rfl)

theorem updStage2_type (s : State) : (updStage2 s)._type = s._type := by
  unfold updStage2 updStage1 _reset _updateAltitudeAboveGround _setDefaultConstraints
  split <;> split <;> first | rfl | (split <;> rfl)

theorem updStage3_type (s : State) : (updStage3 s)._type = s._type := by
  unfold updStage3
  split
  · exact updStage2_type s
  · exact updStage2_type s

theorem updStage3_thrust (s : State) :
    (updStage3 s)._thrust_setpoint =
      if s._type_previous = WaypointType.idle then nan3 else s._thrust_setpoint := by
  unfold updStage3
  split <;> simp_all [updStage2_thrust]

theorem dispatch_thrust (u : F → F → F × F) (s : State) :
    (dispatch u s)._thrust_setpoint =
      if s._type = WaypointType.idle then zero3 else s._thrust_setpoint := by
  unfold dispatch _generateIdleSetpoints _generateLandSetpoints _generateSetpoints
    _generateTakeoffSetpoints _generateVelocitySetpoints
  cases s._type <;> simp [followLine]

theorem dispatch_speed_at_target (u : F → F → F × F) (s : State) :
    (dispatch u s)._speed_at_target = s._speed_at_target := by
  unfold dispatch _generateIdleSetpoints _generateLandSetpoints _generateSetpoints
    _generateTakeoffSetpoints _generateVelocitySetpoints
  cases s._type <;> simp [followLine]

theorem update_thrust (u : F → F → F × F) (s : State) :
    (update u s)._thrust_setpoint = (updStage4 u s)._thrust_setpoint := by
  unfold update
  dsimp only
  split <;> rfl


theorem update_position_setpoint (u : F → F → F × F) (s : State) :
    (update u s)._position_setpoint = (updStage4 u s)._position_setpoint := by
  unfold update
  dsimp only
  split <;> rfl

theorem update_velocity_setpoint (u : F → F → F × F) (s : State) :
    (update u s)._velocity_setpoint = (updStage4 u s)._velocity_setpoint := by
  unfold update
  dsimp only
  split <;> rfl

theorem update_speed_at_target (u : F → F → F × F) (s : State) :
    (update u s)._speed_at_target = (updStage4 u s)._speed_at_target := by
  unfold update
  dsimp only
  split <;> rfl

theorem update_alt_above_ground (u : F → F → F × F) (s : State) :
    (update u s)._alt_above_ground = (updStage4 u s)._alt_above_ground := by
  unfold update
  dsimp only
  split <;> rfl

theorem update_type_previous (u : F → F → F × F) (s : State) :
    (update u s)._type_previous = s._type := rfl

theorem update_gear (u : F → F → F × F) (s : State) :
    (update u s)._constraints.landing_gear =
      if _highEnoughForLandingGear (updStage4 u s) then Gear.up
      else (updStage4 u s)._constraints.landing_gear := by
  unfold update
  dsimp only
  cases hB : _highEnoughForLandingGear (updStage4 u s) <;> simp [hB]

theorem updStage1_fields (s : State) :
    (updStage1 s)._position_setpoint = s._position_setpoint ∧
    (updStage1 s)._velocity_setpoint = s._velocity_setpoint ∧
    (updStage1 s)._speed_at_target = s._speed_at_target ∧
    (updStage1 s)._position = s._position ∧
    (updStage1 s)._velocity = s._velocity := by
  unfold updStage1 _updateAltitudeAboveGround _setDefaultConstraints
  split
  · exact ⟨rfl, rfl, rfl, rfl, rfl⟩
  · split <;> exact ⟨rfl, rfl, rfl, rfl, rfl⟩

theorem updStage2_setpoints (s : State) :
    ((followLine s._type && ! followLine s._type_previous) = true →
      (updStage2 s)._position_setpoint = s._position ∧
      (updStage2 s)._velocity_setpoint = s._velocity ∧
      (updStage2 s)._speed_at_target = F.fin 0) ∧
    ((followLine s._type && ! followLine s._type_previous) = false →
      (updStage2 s)._position_setpoint = s._position_setpoint ∧
      (updStage2 s)._velocity_setpoint = s._velocity_setpoint ∧
      (updStage2 s)._speed_at_target = s._speed_at_target) := by
  have h1 := updStage1_fields s
  constructor
  · intro h
    unfold updStage2 _reset
    simp only [h, if_true]
    exact ⟨h1.2.2.2.1, h1.2.2.2.2, by trivial⟩
  · intro h
    unfold updStage2
    simp only [h]
    exact ⟨h1.1, h1.2.1, h1.2.2.1⟩

theorem updStage3_setpoints (s : State) :
    (updStage3 s)._position_setpoint = (updStage2 s)._position_setpoint ∧
    (updStage3 s)._velocity_setpoint = (updStage2 s)._velocity_setpoint ∧
    (updStage3 s)._speed_at_target = (updStage2 s)._speed_at_target := by
  unfold updStage3
  split <;> exact ⟨rfl, rfl, rfl⟩

theorem dispatch_followLine (u : F → F → F × F) (s : State)
    (h : followLine s._type = true) : dispatch u s = s := by
  unfold dispatch
  cases ht : s._type <;> simp [followLine, ht, _generateSetpoints] at h ⊢

/-- Claim C3 (confirmed): the altitude estimator returns the distance-to-ground
measurement verbatim when it is finite; otherwise `-position_down + home_z`
when the home altitude reference is valid; otherwise `-position_down`.  Being a
total function, no branch raises an error. -/
theorem claim_c3_altitude_estimator (s : State) :
    (s._dist_to_bottom.isfinite = true →
      (_updateAltitudeAboveGround s)._alt_above_ground = s._dist_to_bottom)
    ∧ (s._dist_to_bottom.isfinite = false → s._sub_home_position.valid_alt = true →
      (_updateAltitudeAboveGround s)._alt_above_ground =
        (s._position.z.neg).add s._sub_home_position.z)
    ∧ (s._dist_to_bottom.isfinite = false → s._sub_home_position.valid_alt = false →
      (_updateAltitudeAboveGround s)._alt_above_ground = s._position.z.neg) := by
  unfold _updateAltitudeAboveGround
  refine ⟨?_, ?_, ?_⟩
  · intro h
    simp [h]
  · intro h1 h2
    simp [h1, h2]
  · intro h1 h2
    simp [h1, h2]

/-- Witness for C3: on the concrete state st0 (NaN distance, invalid home,
down-position -10) the estimator yields 10. -/
theorem claim_c3_altitude_estimator_witness :
    st0._dist_to_bottom.isfinite = false ∧ st0._sub_home_position.valid_alt = false ∧
    (_updateAltitudeAboveGround st0)._alt_above_ground = F.fin 10 :=
  ⟨by decide, by decide,
    ((claim_c3_altitude_estimator st0).2.2 (by decide) (by decide)).trans (by decide)⟩

/-- Claim C6 (confirmed): after every parameter reload, LAND_ALT1 equals
max(LAND_ALT1, LAND_ALT2); a reload seeing ALT1 < ALT2 raises ALT1 to ALT2, a
reload seeing ALT1 ≥ ALT2 leaves every parameter unchanged, LAND_ALT2 is never
written, and the invariant ALT1 ≥ ALT2 holds after every reload. -/
theorem claim_c6_param_reload (p : Params) :
    (updateParams p).MPC_LAND_ALT1 = max p.MPC_LAND_ALT1 p.MPC_LAND_ALT2
    ∧ (p.MPC_LAND_ALT1 < p.MPC_LAND_ALT2 →
        (updateParams p).MPC_LAND_ALT1 = p.MPC_LAND_ALT2)
    ∧ (p.MPC_LAND_ALT2 ≤ p.MPC_LAND_ALT1 → updateParams p = p)
    ∧ (updateParams p).MPC_LAND_ALT2 = p.MPC_LAND_ALT2
    ∧ (updateParams p).MPC_LAND_ALT2 ≤ (updateParams p).MPC_LAND_ALT1 := by
  refine ⟨rfl, ?_, ?_, rfl, ?_⟩
  · intro h
    simp [updateParams, max_eq_right h.le]
  · intro h
    unfold updateParams
    rw [max_eq_left h]
  · simp [updateParams]

/-- Witness for C6: a reload seeing ALT1 = 1 < 3 = ALT2 raises ALT1 to 3, and a
reload seeing the well-ordered p0 (ALT2 = 1 ≤ 3 = ALT1) changes nothing. -/
theorem claim_c6_param_reload_witness :
    (updateParams { p0 with MPC_LAND_ALT1 := 1, MPC_LAND_ALT2 := 3 }).MPC_LAND_ALT1 = 3
    ∧ updateParams p0 = p0 :=
  ⟨(claim_c6_param_reload { p0 with MPC_LAND_ALT1 := 1, MPC_LAND_ALT2 := 3 }).2.1
      (by norm_num [p0]),
    (claim_c6_param_reload p0).2.2.1 (by norm_num [p0])⟩

/-- Claim C7 (confirmed): the Velocity generator maps an exactly-zero current
horizontal velocity to the zero (not NaN) horizontal velocity setpoint, for
every unit-direction function; and for every input the position setpoint is
(NaN, NaN, current down position) and the vertical velocity setpoint is NaN. -/
theorem claim_c7_velocity_generator (u : F → F → F × F) (s : State) :
    ((s._velocity.x = F.fin 0 ∧ s._velocity.y = F.fin 0) →
      (_generateVelocitySetpoints u s)._velocity_setpoint.x = F.fin 0 ∧
      (_generateVelocitySetpoints u s)._velocity_setpoint.y = F.fin 0)
    ∧ (_generateVelocitySetpoints u s)._position_setpoint.x = F.nan
    ∧ (_generateVelocitySetpoints u s)._position_setpoint.y = F.nan
    ∧ (_generateVelocitySetpoints u s)._position_setpoint.z = s._position.z
    ∧ (_generateVelocitySetpoints u s)._velocity_setpoint.z = F.nan := by
  refine ⟨?_, rfl, rfl, rfl, rfl⟩
  intro h
  unfold _generateVelocitySetpoints unit_or_zero
  dsimp only
  rw [if_pos h]
  constructor <;> simp [F.mul]

/-- Witness for C7: st0 is at rest, and its horizontal velocity setpoint comes
out exactly zero. -/
theorem claim_c7_velocity_generator_witness :
    (_generateVelocitySetpoints unitDir0 st0)._velocity_setpoint.x = F.fin 0 ∧
    (_generateVelocitySetpoints unitDir0 st0)._velocity_setpoint.y = F.fin 0 :=
  (claim_c7_velocity_generator unitDir0 st0).1 ⟨rfl, rfl⟩

/-- Claim C8 (confirmed): the Idle generator always outputs fully-NaN position
and velocity setpoints and an exactly-zero thrust setpoint, regardless of the
input state. -/
theorem claim_c8_idle_generator (s : State) :
    (_generateIdleSetpoints s)._position_setpoint = nan3 ∧
    (_generateIdleSetpoints s)._velocity_setpoint = nan3 ∧
    (_generateIdleSetpoints s)._thrust_setpoint = zero3 :=
  ⟨rfl, rfl, rfl⟩

/-- Claim C9 (confirmed): the cycle's output constraints do not depend on the
constraints state left by the previous cycle — two update runs identical except
for the pre-call constraints value produce equal constraints outputs, because
the defaults overwrite every constraint field before dispatch. -/
theorem claim_c9_constraints_no_persist (u : F → F → F × F) (s : State)
    (c c' : Constraints) :
    (update u { s with _constraints := c })._constraints =
    (update u { s with _constraints := c' })._constraints := rfl

/-- Claim C10 (confirmed): `_reset` writes only the position setpoint, the
velocity setpoint and the speed-at-target field (to the current state and
zero), leaving every other field — in particular the thrust setpoint — exactly
as it was; and `activate`, which is `_reset` after the base activation,
likewise leaves the thrust setpoint unchanged. -/
theorem claim_c10_reset_frame (s : State) :
    (_reset s)._thrust_setpoint = s._thrust_setpoint
    ∧ (_reset s)._constraints = s._constraints
    ∧ (_reset s).params = s.params
    ∧ (_reset s)._type = s._type
    ∧ (_reset s)._type_previous = s._type_previous
    ∧ (_reset s)._position = s._position
    ∧ (_reset s)._velocity = s._velocity
    ∧ (_reset s)._target = s._target
    ∧ (_reset s)._alt_above_ground = s._alt_above_ground
    ∧ (_reset s)._dist_to_bottom = s._dist_to_bottom
    ∧ (_reset s)._sub_home_position = s._sub_home_position
    ∧ (_reset s)._position_setpoint = s._position
    ∧ (_reset s)._velocity_setpoint = s._velocity
    ∧ (_reset s)._speed_at_target = F.fin 0
    ∧ (activate s)._thrust_setpoint = s._thrust_setpoint :=
  ⟨rfl, rfl, rfl, rfl, rfl, rfl, rfl, rfl, rfl, rfl, rfl, rfl, rfl, rfl, rfl⟩

/-- Claim C4 (confirmed): the thrust setpoint is force-reset to fully-NaN
before the generator dispatch whenever the previous cycle's type was Idle, the
cycle output is fully-NaN exactly on an Idle→non-Idle tick, and the thrust
setpoint never becomes NaN (from a non-NaN value) on any other tick. -/
theorem claim_c4_thrust_reset_on_idle_exit (u : F → F → F × F) (s : State) :
    (s._type_previous = WaypointType.idle → (updStage3 s)._thrust_setpoint = nan3)
    ∧ (s._type_previous = WaypointType.idle → s._type ≠ WaypointType.idle →
        (update u s)._thrust_setpoint = nan3)
    ∧ ((update u s)._thrust_setpoint = nan3 → s._thrust_setpoint ≠ nan3 →
        s._type_previous = WaypointType.idle ∧ s._type ≠ WaypointType.idle) := by
  have hupd : (update u s)._thrust_setpoint =
      if s._type = WaypointType.idle then zero3
      else if s._type_previous = WaypointType.idle then nan3 else s._thrust_setpoint := by
    rw [update_thrust]
    unfold updStage4
    rw [dispatch_thrust, updStage3_type, updStage3_thrust]
  refine ⟨?_, ?_, ?_⟩
  · intro h1
    rw [updStage3_thrust, if_pos h1]
  · intro h1 h2
    rw [hupd, if_neg h2, if_pos h1]
  · intro hn hne
    rw [hupd] at hn
    by_cases h2 : s._type = WaypointType.idle
    · rw [if_pos h2] at hn
      exact absurd hn (by decide)
    · rw [if_neg h2] at hn
      by_cases h1 : s._type_previous = WaypointType.idle
      · exact ⟨h1, h2⟩
      · rw [if_neg h1] at hn
        exact absurd hn hne

/-- Witness for C4: a concrete Idle→Takeoff tick ends with a fully-NaN thrust
setpoint. -/
theorem claim_c4_thrust_reset_on_idle_exit_witness :
    (update unitDir0
      { st0 with _type := WaypointType.takeoff, _type_previous := WaypointType.idle
      })._thrust_setpoint = nan3 :=
  (claim_c4_thrust_reset_on_idle_exit unitDir0
    { st0 with _type := WaypointType.takeoff, _type_previous := WaypointType.idle }).2.1
    rfl (by decide)

/-- Claim C5 (confirmed): the setpoint reset (position and velocity setpoints
set to the current vehicle state, target-approach speed zeroed) shows in the
cycle output exactly when the current type is line-following and the previous
was not; when both are line-following the setpoints are held, when the current
type is not line-following the target-approach speed is untouched, and the
previous-type memory becomes the current type, so a Takeoff→Loiter transition
resets exactly once, on the first line-following tick. -/
theorem claim_c5_line_follow_reset (u : F → F → F × F) (s : State) :
    (followLine s._type = true → followLine s._type_previous = false →
      (update u s)._position_setpoint = s._position ∧
      (update u s)._velocity_setpoint = s._velocity ∧
      (update u s)._speed_at_target = F.fin 0)
    ∧ (followLine s._type = true → followLine s._type_previous = true →
      (update u s)._position_setpoint = s._position_setpoint ∧
      (update u s)._velocity_setpoint = s._velocity_setpoint ∧
      (update u s)._speed_at_target = s._speed_at_target)
    ∧ (followLine s._type = false →
      (update u s)._speed_at_target = s._speed_at_target)
    ∧ (update u s)._type_previous = s._type := by
  have h3 := updStage3_setpoints s
  refine ⟨?_, ?_, ?_, update_type_previous u s⟩
  · intro hfl hflp
    have hcond : (followLine s._type && ! followLine s._type_previous) = true := by
      simp [hfl, hflp]
    have h2 := (updStage2_setpoints s).1 hcond
    have h4 : updStage4 u s = updStage3 s := by
      unfold updStage4
      exact dispatch_followLine u (updStage3 s) (by rw [updStage3_type]; exact hfl)
    exact ⟨by rw [update_position_setpoint, h4, h3.1, h2.1],
      by rw [update_velocity_setpoint, h4, h3.2.1, h2.2.1],
      by rw [update_speed_at_target, h4, h3.2.2, h2.2.2]⟩
  · intro hfl hflp
    have hcond : (followLine s._type && ! followLine s._type_previous) = false := by
      simp [hfl, hflp]
    have h2 := (updStage2_setpoints s).2 hcond
    have h4 : updStage4 u s = updStage3 s := by
      unfold updStage4
      exact dispatch_followLine u (updStage3 s) (by rw [updStage3_type]; exact hfl)
    exact ⟨by rw [update_position_setpoint, h4, h3.1, h2.1],
      by rw [update_velocity_setpoint, h4, h3.2.1, h2.2.1],
      by rw [update_speed_at_target, h4, h3.2.2, h2.2.2]⟩
  · intro hfl
    have hcond : (followLine s._type && ! followLine s._type_previous) = false := by
      simp [hfl]
    have h2 := (updStage2_setpoints s).2 hcond
    rw [update_speed_at_target]
    unfold updStage4
    rw [dispatch_speed_at_target, h3.2.2, h2.2.2]

/-- Witness for C5: st0 is a Takeoff→Loiter tick, and its output setpoints are
reset to the current vehicle state with zero target-approach speed. -/
theorem claim_c5_line_follow_reset_witness :
    (update unitDir0 st0)._position_setpoint = st0._position ∧
    (update unitDir0 st0)._velocity_setpoint = st0._velocity ∧
    (update unitDir0 st0)._speed_at_target = F.fin 0 :=
  (claim_c5_line_follow_reset unitDir0 st0).1 (by decide) (by decide)

theorem gradual_fin (v xl xh yl yh : ℚ) (hx : xl < xh) :
    gradual (F.fin v) (F.fin xl) (F.fin xh) (F.fin yl) (F.fin yh) =
      if v < xl then F.fin yl
      else if xh < v then F.fin yh
      else F.fin (yl + (yh - yl) * ((v - xl) / (xh - xl))) := by
  have hne : xh - xl ≠ 0 := sub_ne_zero.mpr hx.ne'
  unfold gradual
  by_cases h1 : v < xl
  · simp [F.lt, h1]
  · by_cases h2 : xh < v
    · simp [F.lt, F.gt, h1, h2]
    · simp only [F.lt, F.gt, F.sub, F.div, F.mul, F.add]
      simp [h1, h2, hne]
      field_simp
      ring

/-- Claim C1 (corrected): for every run of the Takeoff generator with a finite
altitude, a finite prior default ascent limit and LAND_ALT2 < LAND_ALT1, the
ascent-speed limit is the clamped linear ramp that equals TKO_SPEED at
altitudes ≤ LAND_ALT2, equals the prior default at altitudes ≥ LAND_ALT1, is
their linear interpolation strictly between, and is their arithmetic mean at
the midpoint — the two endpoints are the reverse of the claim as stated. -/
theorem claim_c1_takeoff_ramp (s : State) (a d : ℚ)
    (halt : s._alt_above_ground = F.fin a)
    (hsu : s._constraints.speed_up = F.fin d)
    (hord : s.params.MPC_LAND_ALT2 < s.params.MPC_LAND_ALT1) :
    (a ≤ s.params.MPC_LAND_ALT2 →
      (_generateTakeoffSetpoints s)._constraints.speed_up = F.fin s.params.MPC_TKO_SPEED)
    ∧ (s.params.MPC_LAND_ALT1 ≤ a →
      (_generateTakeoffSetpoints s)._constraints.speed_up = F.fin d)
    ∧ (s.params.MPC_LAND_ALT2 < a → a < s.params.MPC_LAND_ALT1 →
      (_generateTakeoffSetpoints s)._constraints.speed_up =
        F.fin (s.params.MPC_TKO_SPEED +
          (d - s.params.MPC_TKO_SPEED) *
            ((a - s.params.MPC_LAND_ALT2) /
              (s.params.MPC_LAND_ALT1 - s.params.MPC_LAND_ALT2))))
    ∧ (a = (s.params.MPC_LAND_ALT2 + s.params.MPC_LAND_ALT1) / 2 →
      (_generateTakeoffSetpoints s)._constraints.speed_up =
        F.fin ((s.params.MPC_TKO_SPEED + d) / 2)) := by
  have hne : s.params.MPC_LAND_ALT1 - s.params.MPC_LAND_ALT2 ≠ 0 :=
    sub_ne_zero.mpr hord.ne'
  have key : (_generateTakeoffSetpoints s)._constraints.speed_up =
      if a < s.params.MPC_LAND_ALT2 then F.fin s.params.MPC_TKO_SPEED
      else if s.params.MPC_LAND_ALT1 < a then F.fin d
      else F.fin (s.params.MPC_TKO_SPEED +
        (d - s.params.MPC_TKO_SPEED) *
          ((a - s.params.MPC_LAND_ALT2) /
            (s.params.MPC_LAND_ALT1 - s.params.MPC_LAND_ALT2))) := by
    have hbase : (_generateTakeoffSetpoints s)._constraints.speed_up =
        gradual s._alt_above_ground (F.fin s.params.MPC_LAND_ALT2)
          (F.fin s.params.MPC_LAND_ALT1) (F.fin s.params.MPC_TKO_SPEED)
          s._constraints.speed_up := rfl
    rw [hbase, halt, hsu, gradual_fin a s.params.MPC_LAND_ALT2 s.params.MPC_LAND_ALT1
      s.params.MPC_TKO_SPEED d hord]
  refine ⟨?_, ?_, ?_, ?_⟩
  · intro h
    rcases lt_or_eq_of_le h with hlt | heq
    · rw [key, if_pos hlt]
    · rw [key, if_neg (by rw [heq]; exact lt_irrefl _),
        if_neg (by rw [heq]; exact not_lt.mpr hord.le)]
      rw [heq]
      simp
  · intro h
    have hnot1 : ¬ a < s.params.MPC_LAND_ALT2 := not_lt.mpr (le_trans hord.le h)
    rcases lt_or_eq_of_le h with hlt | heq
    · rw [key, if_neg hnot1, if_pos hlt]
    · rw [key, if_neg hnot1, if_neg (by rw [← heq]; exact lt_irrefl _)]
      rw [← heq]
      congr 1
      field_simp
  · intro h1 h2
    rw [key, if_neg (not_lt.mpr h1.le), if_neg (not_lt.mpr h2.le)]
  · intro heq
    have h1 : s.params.MPC_LAND_ALT2 < a := by rw [heq]; linarith
    have h2 : a < s.params.MPC_LAND_ALT1 := by rw [heq]; linarith
    rw [key, if_neg (not_lt.mpr h1.le), if_neg (not_lt.mpr h2.le)]
    congr 1
    rw [heq]
    field_simp
    ring

/-- Witness for C1: on a concrete state with LAND_ALT2 = 1 < LAND_ALT1 = 3,
TKO_SPEED = 7, prior default 5 and altitude 2 (the midpoint), the takeoff
ascent limit is the arithmetic mean 6. -/
theorem claim_c1_takeoff_ramp_witness :
    (_generateTakeoffSetpoints
      { st0 with _type := WaypointType.takeoff, _alt_above_ground := F.fin 2
      })._constraints.speed_up = F.fin 6 := by
  have h := (claim_c1_takeoff_ramp
    { st0 with _type := WaypointType.takeoff, _alt_above_ground := F.fin 2 } 2 5
    rfl rfl (by norm_num [st0, p0])).2.2.2 (by norm_num [st0, p0])
  rw [h]
  norm_num [st0, p0]

/-- Counterexample to C1 as stated: the claim puts the prior default at
altitudes ≤ LAND_ALT2 and TKO_SPEED at altitudes ≥ LAND_ALT1, but on a takeoff
run at altitude 0 ≤ LAND_ALT2 = 1 with prior default 5 and TKO_SPEED = 7 the
code produces 7 (TKO_SPEED), not the prior default. -/
theorem claim_c1_counterexample :
    ({ st0 with _type := WaypointType.takeoff } : State)._alt_above_ground = F.fin 0
    ∧ ({ st0 with _type := WaypointType.takeoff } : State).params.MPC_LAND_ALT2 = 1
    ∧ ({ st0 with _type := WaypointType.takeoff } : State).params.MPC_TKO_SPEED = 7
    ∧ ({ st0 with _type := WaypointType.takeoff } : State)._constraints.speed_up = F.fin 5
    ∧ (_generateTakeoffSetpoints
        { st0 with _type := WaypointType.takeoff })._constraints.speed_up = F.fin 7
    ∧ ¬ (_generateTakeoffSetpoints
        { st0 with _type := WaypointType.takeoff })._constraints.speed_up =
          ({ st0 with _type := WaypointType.takeoff } : State)._constraints.speed_up := by
  refine ⟨by decide, by decide, by decide, by decide, by decide, by decide⟩

/-- Claim C2 amended (corrected): after generator dispatch, whenever the
altitude-above-ground computed this cycle exceeds 2.0 meters the output
landing-gear constraint is UP for every generator — including Land and Takeoff,
whose explicit DOWN is overwritten; when the altitude does not exceed 2.0 (or
is NaN) the output gear is exactly what the dispatched generator set, so the
override only ever raises, never lowers. -/
theorem claim_c2_gear_override (u : F → F → F × F) (s : State) :
    ((update u s)._alt_above_ground.gt (F.fin 2) = true →
      (update u s)._constraints.landing_gear = Gear.up)
    ∧ ((update u s)._alt_above_ground.gt (F.fin 2) = false →
      (update u s)._constraints.landing_gear = (updStage4 u s)._constraints.landing_gear)
    ∧ ((update u s)._constraints.landing_gear = Gear.up ∨
      (update u s)._constraints.landing_gear = (updStage4 u s)._constraints.landing_gear) := by
  have halt : (update u s)._alt_above_ground = (updStage4 u s)._alt_above_ground :=
    update_alt_above_ground u s
  have hg := update_gear u s
  unfold _highEnoughForLandingGear at hg
  refine ⟨?_, ?_, ?_⟩
  · intro h
    rw [halt] at h
    rw [hg, if_pos h]
  · intro h
    rw [halt] at h
    rw [hg, if_neg (by simp [h])]
  · by_cases h : (updStage4 u s)._alt_above_ground.gt (F.fin 2) = true
    · exact Or.inl (by rw [hg, if_pos h])
    · exact Or.inr (by rw [hg, if_neg h])

/-- Witness for C2 amended: a concrete takeoff tick at altitude 1 ≤ 2 keeps
the generator's gear choice (DOWN) in the output. -/
theorem claim_c2_gear_override_witness :
    (update unitDir0
        { st0 with _type := WaypointType.takeoff, _dist_to_bottom := F.fin 1
        })._alt_above_ground.gt (F.fin 2) = false
    ∧ (update unitDir0
        { st0 with _type := WaypointType.takeoff, _dist_to_bottom := F.fin 1
        })._constraints.landing_gear =
      (updStage4 unitDir0
        { st0 with _type := WaypointType.takeoff, _dist_to_bottom := F.fin 1
        })._constraints.landing_gear :=
  ⟨by decide,
    (claim_c2_gear_override unitDir0
      { st0 with _type := WaypointType.takeoff, _dist_to_bottom := F.fin 1 }).2.1
      (by decide)⟩

/-- Counterexample to C2 as stated: on a takeoff tick with a 3-meter distance
measurement the Takeoff generator explicitly set the gear DOWN, the computed
altitude 3 exceeds 2.0, yet the cycle output has the gear UP — the explicit
DOWN does not remain in the output. -/
theorem claim_c2_counterexample :
    (updStage4 unitDir0
        { st0 with _type := WaypointType.takeoff, _dist_to_bottom := F.fin 3
        })._constraints.landing_gear = Gear.down
    ∧ (update unitDir0
        { st0 with _type := WaypointType.takeoff, _dist_to_bottom := F.fin 3
        })._alt_above_ground = F.fin 3
    ∧ F.gt (F.fin 3) (F.fin 2) = true
    ∧ (update unitDir0
        { st0 with _type := WaypointType.takeoff, _dist_to_bottom := F.fin 3
        })._constraints.landing_gear = Gear.up := by
  refine ⟨by decide, by decide, by decide, by decide⟩
